import Mathlib

/-!
Shallow embedding of the registry engine of the cratery repository
(src/application.rs, src/routes.rs), restricted to the parts needed to
settle the claims about error handling, publish sequencing, the sparse
index HTTP surface, the Git smart-HTTP surface, target whitelisting and
authentication capabilities.

Services whose implementation files are not part of the analysed sources
(database, storage, index internals) enter the model as oracle parameters
recording only their outcome; the control flow around them is translated
from the source.
-/

namespace Cratery

/-- Errors surfaced by the application, as in utils/apierror.rs: an HTTP
status code and a human readable message. -/
structure ApiError where
  http : Nat
  message : String
deriving DecidableEq, Repr

/-- Error for an invalid request (HTTP 400). -/
def error_invalid_request : ApiError := { http := 400, message := "invalid request" }

/-- Error for a failed authentication (HTTP 401). -/
def error_unauthorized : ApiError := { http := 401, message := "unauthorized" }

/-- Error for a missing resource (HTTP 404). -/
def error_not_found : ApiError := { http := 404, message := "not found" }

/-- Error for an already existing resource (HTTP 409). -/
def error_already_exists : ApiError := { http := 409, message := "already exists" }

/-- Internal error (HTTP 500), standing for failures of external services. -/
def error_internal : ApiError := { http := 500, message := "internal error" }

/-- Specializes an error with a new message, as utils/apierror.rs does. -/
def specialize (e : ApiError) (msg : String) : ApiError := { e with message := msg }

/-- Whether an Except value is the ok variant. -/
def exceptIsOk {α : Type} (r : Except ApiError α) : Bool :=
  match r with
  | .ok _ => true
  | .error _ => false

/-! ## Sparse index content types (routes.rs, index_serve_inner) -/

/-- Splits a character list on a separator; the groups between separator
occurrences, the empty input giving one empty group. -/
def splitOnChar (sep : Char) : List Char → List (List Char)
  | [] => [[]]
  | c :: rest =>
    match splitOnChar sep rest with
    | [] => if c = sep then [[], []] else [[c]]
    | g :: gs => if c = sep then [] :: g :: gs else (c :: g) :: gs

/-- The ASCII lowercase image of a character, other characters kept. -/
def asciiLower (c : Char) : Char :=
  if 65 ≤ c.toNat ∧ c.toNat ≤ 90 then Char.ofNat (c.toNat + 32) else c

/-- ASCII case insensitive equality of character lists, as Rust
eq_ignore_ascii_case. -/
def eqIgnoreAsciiCase : List Char → List Char → Bool
  | [], [] => true
  | x :: xs, y :: ys => asciiLower x == asciiLower y && eqIgnoreAsciiCase xs ys
  | _, _ => false

/-- Whether a string starts with the given other string. -/
def strStartsWith (s pre : String) : Bool :=
  List.isPrefixOf pre.data s.data

/-- The final component of a slash separated path, as Rust Path file_name
computes it for the request paths at hand. -/
def fileNameOf (path : String) : List Char :=
  (splitOnChar (Char.ofNat 47) path.data).getLastD []

/-- The file name suffix after its last dot, as Rust Path::extension: none
when there is no dot, none when the name is a lone leading dot name,
otherwise the suffix after the last dot, possibly empty. -/
def extOfName (name : List Char) : Option (List Char) :=
  match splitOnChar (Char.ofNat 46) name with
  | [] => none
  | [_] => none
  | [[], _] => none
  | parts => some (parts.getLastD [])

/-- Whether the path has a json file suffix, compared ASCII case
insensitively as in index_serve_inner (routes.rs line 588). -/
def hasJsonExt (path : String) : Bool :=
  match extOfName (fileNameOf path) with
  | some e => eqIgnoreAsciiCase e "json".data
  | none => false

/-- The content type chosen by index_serve_inner (routes.rs lines 588 to
597): application/json for a json file suffix, text/plain for the HEAD
file and paths under /info, application/octet-stream otherwise. -/
def index_content_type (path : String) : String :=
  if hasJsonExt path then "application/json"
  else if path == "/HEAD" || strStartsWith path "/info" then "text/plain; charset=utf-8"
  else "application/octet-stream"

/-- index_serve_inner (routes.rs lines 580 to 598): resolve the path in the
index checkout and open the file, both failures becoming NotFound, then
pair the stream with the content type. The file resolution outcome is an
oracle parameter. -/
def index_serve_inner (fileOk : Bool) (path : String) : Except ApiError String :=
  if !fileOk then .error error_not_found
  else .ok (index_content_type path)

/-- index_serve (routes.rs lines 626 to 649): every path other than
/config.json is NotFound when the sparse protocol is disabled; then the
request is authenticated and delegated to index_serve_inner. -/
def index_serve (allowSparse authOk fileOk : Bool) (path : String) :
    Except ApiError String :=
  if path != "/config.json" && !allowSparse then .error error_not_found
  else if !authOk then .error error_unauthorized
  else index_serve_inner fileOk path

/-! ## Git smart-HTTP surface (routes.rs) -/

/-- index_serve_info_refs (routes.rs lines 651 to 681): NotFound when the
git protocol is disabled, then authentication, then the advertisement is
produced only for the service value git-upload-pack, every other service
value being NotFound. The advertisement bytes are an oracle parameter. -/
def index_serve_info_refs (allowGit authOk : Bool) (service : Option String)
    (refs : Except ApiError (List Nat)) : Except ApiError (String × List Nat) :=
  if !allowGit then .error error_not_found
  else if !authOk then .error error_unauthorized
  else if service == some "git-upload-pack" then
    match refs with
    | .error e => .error e
    | .ok data => .ok ("application/x-git-upload-pack-advertisement", data)
  else .error error_not_found

/-- index_serve_git_upload_pack (routes.rs lines 683 to 706): NotFound when
the git protocol is disabled, then authentication, then the packfile
negotiation result with its content type. -/
def index_serve_git_upload_pack (allowGit authOk : Bool)
    (pack : Except ApiError (List Nat)) : Except ApiError (String × List Nat) :=
  if !allowGit then .error error_not_found
  else if !authOk then .error error_unauthorized
  else match pack with
    | .error e => .error e
    | .ok data => .ok ("application/x-git-upload-pack-result", data)

/-! ## Crate download endpoint (routes.rs, api_v1_download_crate) -/

/-- api_v1_download_crate (routes.rs lines 458 to 477): on success the
bytes with content type application/octet-stream, on failure the error with
an HTTP status of 401 rewritten to 403, every other status kept. The
download outcome is an oracle parameter. -/
def api_v1_download_crate (r : Except ApiError (List Nat)) :
    Except ApiError (Nat × String × List Nat) :=
  match r with
  | .ok data => .ok (200, "application/octet-stream", data)
  | .error e => .error (if e.http == 401 then { e with http := 403 } else e)

/-! ## Publish sequencing (application.rs, publish_crate_version)

Modelled from the spec: the transaction wrapper in_transaction (utils/db.rs,
not among the analysed sources) commits the metadata transaction when the
closure returns Ok and rolls it back when it returns Err. The order of the
steps inside the closure and which failures propagate are translated from
application.rs lines 280 to 308. -/

/-- A documentation generation job, as model::JobCrate. -/
structure JobCrate where
  name : String
  version : String
  targets : List String
deriving DecidableEq, Repr

/-- The observable state of the four storage planes: committed metadata
rows, stored tarballs, index lines, and the queued documentation jobs. -/
structure World where
  dbVersions : List (String × String)
  storedCrates : List (String × String)
  indexLines : List (String × String)
  queuedJobs : List JobCrate
deriving DecidableEq, Repr

/-- The empty initial state of the four planes. -/
def World.empty : World :=
  { dbVersions := [], storedCrates := [], indexLines := [], queuedJobs := [] }

/-- Outcomes of the external steps of a publish, in the order the source
performs them: authentication, payload parsing, the metadata insert inside
the transaction, the tarball store, the index append and commit, and the
send on the documentation job channel. -/
structure PublishEnv where
  authOk : Bool
  parseOk : Bool
  dbInsertOk : Bool
  storeOk : Bool
  indexOk : Bool
  sendOk : Bool
deriving DecidableEq, Repr

/-- Events recorded along a publish run, used to state ordering facts. -/
inductive PubEv where
  | authEv
  | parseEv
  | dbInsert
  | storeCrate
  | indexCommit
  | enqueue
  | metaCommit
  | rollback
deriving DecidableEq, Repr

/-- publish_crate_version (application.rs lines 280 to 308): inside one
metadata transaction, authenticate, parse the payload, insert the metadata
rows, store the tarball, append and commit the index line, read the target
list, send the documentation job, and return Ok; any failure propagates
with the question mark operator, rolling back the transaction on exit while
the effects already applied to the other planes remain. The result is the
final state of the planes, the outcome, and the event trace. -/
def publish_crate_version (env : PublishEnv) (name vers : String)
    (targets : List String) (w : World) :
    World × Except ApiError Unit × List PubEv :=
  if !env.authOk then
    (w, .error error_unauthorized, [.rollback])
  else if !env.parseOk then
    (w, .error error_invalid_request, [.authEv, .rollback])
  else if !env.dbInsertOk then
    (w, .error error_already_exists, [.authEv, .parseEv, .rollback])
  else if !env.storeOk then
    (w, .error error_internal, [.authEv, .parseEv, .dbInsert, .rollback])
  else
    let w1 : World := { w with storedCrates := w.storedCrates ++ [(name, vers)] }
    if !env.indexOk then
      (w1, .error error_internal,
        [.authEv, .parseEv, .dbInsert, .storeCrate, .rollback])
    else
      let w2 : World := { w1 with indexLines := w1.indexLines ++ [(name, vers)] }
      if !env.sendOk then
        (w2, .error error_internal,
          [.authEv, .parseEv, .dbInsert, .storeCrate, .indexCommit, .rollback])
      else
        let w3 : World := { w2 with
          queuedJobs := w2.queuedJobs ++ [{ name := name, version := vers, targets := targets }],
          dbVersions := w2.dbVersions ++ [(name, vers)] }
        (w3, .ok (),
          [.authEv, .parseEv, .dbInsert, .storeCrate, .indexCommit, .enqueue, .metaCommit])

/-! ## Target whitelisting (application.rs, set_crate_targets) -/

/-- set_crate_targets (application.rs lines 503 to 516): after
authentication, the requested targets are checked in order against the
configured whitelist of built in targets; the first unknown one aborts the
transaction with an InvalidRequest naming it, leaving the stored list
unchanged, and only when all belong to the whitelist is the database update
performed. The pair returned is the outcome and the stored target list
after the call. -/
def set_crate_targets (builtin : List String) (authOk dbOk : Bool)
    (requested current : List String) : Except ApiError Unit × List String :=
  if !authOk then (.error error_unauthorized, current)
  else
    match requested.find? (fun t => !builtin.contains t) with
    | some t =>
        (.error (specialize error_invalid_request ("Unknown target: " ++ t)), current)
    | none => if dbOk then (.ok (), requested) else (.error error_internal, current)

/-! ## Crate information (application.rs, get_crate_info) -/

/-- Outcome of a call that may also panic, to state facts about the unwrap
in get_crate_info. -/
inductive Outcome (α : Type) where
  | ok : α → Outcome α
  | err : ApiError → Outcome α
  | panicked : Outcome α
deriving DecidableEq, Repr

/-- The data returned by get_crate_info, as model::packages::CrateInfo:
the latest manifest, the version list, and the target list. -/
structure CrateInfo where
  metadata : String
  versions : List String
  targets : List String
deriving DecidableEq, Repr

/-- get_crate_info (application.rs lines 311 to 332): authenticate, fetch
the version list, then call unwrap on the last element of that list before
downloading the latest manifest and reading the target list. An empty
version list makes the unwrap panic. The database and storage outcomes are
oracle parameters. -/
def get_crate_info (authOk : Bool) (versionsRes : Except ApiError (List String))
    (metadataRes : String → Except ApiError String)
    (targetsRes : Except ApiError (List String)) : Outcome CrateInfo :=
  if !authOk then .err error_unauthorized
  else
    match versionsRes with
    | .error e => .err e
    | .ok versions =>
      match versions.getLast? with
      | none => .panicked
      | some lastVers =>
        match metadataRes lastVers with
        | .error e => .err e
        | .ok metadata =>
          match targetsRes with
          | .error e => .err e
          | .ok targets => .ok { metadata := metadata, versions := versions, targets := targets }

/-! ## Authentication (routes.rs and application.rs) -/

/-- An authenticated principal, as model::auth::AuthenticatedUser. -/
structure AuthenticatedUser where
  uid : Int
  principal : String
  can_write : Bool
  can_admin : Bool
deriving DecidableEq, Repr

/-- A registry user row, restricted to the fields the login handler
reads. -/
structure RegistryUser where
  id : Int
  email : String
deriving DecidableEq, Repr

/-- An API token credential: identifier and secret. -/
structure Token where
  id : String
  secret : String
deriving DecidableEq, Repr

/-- The authentication data of a request: an optional token, and the
outcome of decoding the identity cookie (an oracle for the cookie
utilities, which are outside the analysed sources). -/
structure AuthData where
  token : Option Token
  cookie : Except ApiError (Option AuthenticatedUser)

/-- The identity cookie issued by api_v1_login_with_oauth_code (routes.rs
lines 269 to 288): the user id and email of the logged in user, with
can_write and can_admin both hardcoded to true. -/
def login_cookie_user (u : RegistryUser) : AuthenticatedUser :=
  { uid := u.id, principal := u.email, can_write := true, can_admin := true }

/-- authenticate_token (application.rs lines 585 to 599): the reserved self
service token yields a read only principal, every other token is checked
against the database (an oracle parameter here). -/
def authenticate_token (selfLogin selfToken : String)
    (check_token : Token → Except ApiError AuthenticatedUser) (token : Token) :
    Except ApiError AuthenticatedUser :=
  if token.id == selfLogin && token.secret == selfToken then
    .ok { uid := -1, principal := selfLogin, can_write := false, can_admin := false }
  else check_token token

/-- authenticate (application.rs lines 574 to 582): a token is checked with
authenticate_token; otherwise the cookie is decoded, its absence is
Unauthorized, and the only check on a decoded cookie is check_is_user on
its principal (an oracle parameter), the cookie principal being returned
unchanged. -/
def authenticate (selfLogin selfToken : String)
    (check_token : Token → Except ApiError AuthenticatedUser)
    (check_is_user : String → Except ApiError Unit)
    (auth_data : AuthData) : Except ApiError AuthenticatedUser :=
  match auth_data.token with
  | some token => authenticate_token selfLogin selfToken check_token token
  | none =>
    match auth_data.cookie with
    | .error e => .error e
    | .ok none => .error error_unauthorized
    | .ok (some user) =>
      match check_is_user user.principal with
      | .error e => .error e
      | .ok _ => .ok user


/-! ## Theorems for the claims -/

/-- The publish environment in which every external step succeeds. -/
def envAllOk : PublishEnv :=
  { authOk := true, parseOk := true, dbInsertOk := true,
    storeOk := true, indexOk := true, sendOk := true }

/-- The publish environment in which only the enqueue of the docs job
fails. -/
def envSendFail : PublishEnv := { envAllOk with sendOk := false }

/-- The publish environment in which only the index append and commit
fails. -/
def envIndexFail : PublishEnv := { envAllOk with indexOk := false }

/-- Claim C1, counterexample: in a publish where every step up to the
enqueue succeeds and the enqueue on the documentation channel fails, the
publish does not succeed: it returns the propagated error and the metadata
transaction is rolled back; moreover in a fully successful run the enqueue
event strictly precedes the metadata commit event, so the job is not
enqueued after the commit. -/
theorem publish_enqueue_failure_fails_cex :
    (publish_crate_version envSendFail "foo" "0.1.0"
        ["x86_64-unknown-linux-gnu"] World.empty).2.1 = .error error_internal ∧
    (publish_crate_version envSendFail "foo" "0.1.0"
        ["x86_64-unknown-linux-gnu"] World.empty).1.dbVersions = [] ∧
    (publish_crate_version envAllOk "foo" "0.1.0"
        ["x86_64-unknown-linux-gnu"] World.empty).2.2.indexOf PubEv.enqueue <
      (publish_crate_version envAllOk "foo" "0.1.0"
        ["x86_64-unknown-linux-gnu"] World.empty).2.2.indexOf PubEv.metaCommit := by
  refine ⟨rfl, rfl, ?_⟩
  decide

/-- Claim C1, amended: the docs job is enqueued inside the metadata
transaction, before it commits; in a successful publish the enqueue event
precedes the metadata commit event, and when the enqueue fails the whole
publish fails with the error propagated, the metadata transaction rolled
back and no job queued, while the already stored tarball and the committed
index line remain. -/
theorem publish_enqueue_inside_transaction (name vers : String)
    (targets : List String) (w : World) :
    ((publish_crate_version envAllOk name vers targets w).2.2.indexOf PubEv.enqueue <
      (publish_crate_version envAllOk name vers targets w).2.2.indexOf PubEv.metaCommit) ∧
    (publish_crate_version envSendFail name vers targets w).2.1 = .error error_internal ∧
    (publish_crate_version envSendFail name vers targets w).1.dbVersions = w.dbVersions ∧
    (publish_crate_version envSendFail name vers targets w).1.queuedJobs = w.queuedJobs ∧
    (publish_crate_version envSendFail name vers targets w).1.storedCrates =
      w.storedCrates ++ [(name, vers)] ∧
    (publish_crate_version envSendFail name vers targets w).1.indexLines =
      w.indexLines ++ [(name, vers)] := by
  have htr : (publish_crate_version envAllOk name vers targets w).2.2 =
      [PubEv.authEv, PubEv.parseEv, PubEv.dbInsert, PubEv.storeCrate,
       PubEv.indexCommit, PubEv.enqueue, PubEv.metaCommit] := rfl
  refine ⟨?_, rfl, rfl, rfl, rfl, rfl⟩
  rw [htr]
  decide

/-- Claim C2, counterexample: in a publish where the tarball store succeeds
and the index append and commit fails, the publish fails but the just
uploaded tarball is still present in the artifact store afterwards, so a
failed publish does leave partial state in the artifact store. -/
theorem publish_index_failure_keeps_tarball_cex :
    (publish_crate_version envIndexFail "foo" "0.1.0" []
        World.empty).2.1 = .error error_internal ∧
    (publish_crate_version envIndexFail "foo" "0.1.0" []
        World.empty).1.storedCrates = [("foo", "0.1.0")] :=
  ⟨rfl, rfl⟩

/-- Claim C2, amended: when the index append and commit step fails after
the tarball has been stored, the error propagates and the metadata
transaction is rolled back, and no index line or job is recorded, but the
facade performs no delete of the just uploaded tarball, which remains in
the artifact store. -/
theorem publish_index_failure_rollback_no_delete (name vers : String)
    (targets : List String) (w : World) :
    (publish_crate_version envIndexFail name vers targets w).2.1 = .error error_internal ∧
    (publish_crate_version envIndexFail name vers targets w).1.dbVersions = w.dbVersions ∧
    (publish_crate_version envIndexFail name vers targets w).1.indexLines = w.indexLines ∧
    (publish_crate_version envIndexFail name vers targets w).1.queuedJobs = w.queuedJobs ∧
    (publish_crate_version envIndexFail name vers targets w).1.storedCrates =
      w.storedCrates ++ [(name, vers)] :=
  ⟨rfl, rfl, rfl, rfl, rfl⟩

/-- Claim C4: in every publish that returns Ok, the metadata rows are the
previous ones extended with the new version, the index line and the stored
tarball for that version are present in the final state, and in the event
trace the index commit strictly precedes the metadata commit, which does
occur; so a reader observing the version in the metadata store also
observes the index line and the tarball. -/
theorem publish_metadata_commit_last (env : PublishEnv) (name vers : String)
    (targets : List String) (w : World)
    (h : exceptIsOk (publish_crate_version env name vers targets w).2.1 = true) :
    (publish_crate_version env name vers targets w).1.dbVersions =
      w.dbVersions ++ [(name, vers)] ∧
    (name, vers) ∈ (publish_crate_version env name vers targets w).1.indexLines ∧
    (name, vers) ∈ (publish_crate_version env name vers targets w).1.storedCrates ∧
    (publish_crate_version env name vers targets w).2.2.indexOf PubEv.indexCommit <
      (publish_crate_version env name vers targets w).2.2.indexOf PubEv.metaCommit ∧
    PubEv.metaCommit ∈ (publish_crate_version env name vers targets w).2.2 := by
  rcases env with ⟨a, b, c, d, e, f⟩
  cases a <;> cases b <;> cases c <;> cases d <;> cases e <;> cases f <;>
    simp_all [publish_crate_version, exceptIsOk]

/-- Witness for claim C4 at a concrete successful publish. -/
theorem publish_metadata_commit_last_witness :
    (publish_crate_version envAllOk "foo" "0.1.0" [] World.empty).1.dbVersions =
      World.empty.dbVersions ++ [("foo", "0.1.0")] ∧
    ("foo", "0.1.0") ∈ (publish_crate_version envAllOk "foo" "0.1.0" []
        World.empty).1.indexLines ∧
    ("foo", "0.1.0") ∈ (publish_crate_version envAllOk "foo" "0.1.0" []
        World.empty).1.storedCrates ∧
    (publish_crate_version envAllOk "foo" "0.1.0" []
        World.empty).2.2.indexOf PubEv.indexCommit <
      (publish_crate_version envAllOk "foo" "0.1.0" []
        World.empty).2.2.indexOf PubEv.metaCommit ∧
    PubEv.metaCommit ∈ (publish_crate_version envAllOk "foo" "0.1.0" []
        World.empty).2.2 :=
  publish_metadata_commit_last envAllOk "foo" "0.1.0" [] World.empty rfl


/-- Claim C3, counterexample: the sparse index serves the crate index file
of the crate foo, requested at /3/f/foo, with content type
application/octet-stream and not application/json, because the content type
choice keys on a json file name suffix which crate index files do not
have. -/
theorem index_crate_file_octet_stream_cex :
    index_serve_inner true "/3/f/foo" = .ok "application/octet-stream" ∧
    index_content_type "/3/f/foo" ≠ "application/json" ∧
    index_serve true true true "/3/f/foo" = .ok "application/octet-stream" :=
  ⟨rfl, by decide, rfl⟩

/-- Claim C3, amended: the sparse index endpoint chooses the content type
application/json exactly for paths whose final component carries a json
file name suffix compared ASCII case insensitively (such as /config.json),
text/plain with utf-8 charset exactly for the path /HEAD and paths starting
with /info that have no json suffix, and application/octet-stream for
everything else, which includes the crate index files such as /3/f/foo
since their file names have no suffix. -/
theorem index_sparse_content_type_rule (path : String) :
    index_serve_inner false path = .error error_not_found ∧
    index_serve_inner true path = .ok (index_content_type path) ∧
    (index_content_type path = "application/json" ↔ hasJsonExt path = true) ∧
    (index_content_type path = "text/plain; charset=utf-8" ↔
      (hasJsonExt path = false ∧ (path = "/HEAD" ∨ strStartsWith path "/info" = true))) ∧
    (index_content_type path = "application/octet-stream" ↔
      (hasJsonExt path = false ∧ path ≠ "/HEAD" ∧ strStartsWith path "/info" = false)) := by
  have hAB : ("application/json" : String) ≠ "text/plain; charset=utf-8" := by decide
  have hAC : ("application/json" : String) ≠ "application/octet-stream" := by decide
  have hBC : ("text/plain; charset=utf-8" : String) ≠ "application/octet-stream" := by decide
  refine ⟨rfl, rfl, ?_, ?_, ?_⟩ <;>
    · unfold index_content_type
      cases hj : hasJsonExt path <;>
        cases hh : (path == "/HEAD") <;>
          cases hi : strStartsWith path "/info" <;>
            simp_all [beq_iff_eq]

/-- Witness for claim C3 at the concrete paths /config.json, /HEAD and
/3/f/foo. -/
theorem index_sparse_content_type_rule_witness :
    index_serve_inner false "/3/f/foo" = .error error_not_found ∧
    index_serve_inner true "/3/f/foo" = .ok (index_content_type "/3/f/foo") ∧
    (index_content_type "/3/f/foo" = "application/json" ↔ hasJsonExt "/3/f/foo" = true) ∧
    (index_content_type "/3/f/foo" = "text/plain; charset=utf-8" ↔
      (hasJsonExt "/3/f/foo" = false ∧
        ("/3/f/foo" = "/HEAD" ∨ strStartsWith "/3/f/foo" "/info" = true))) ∧
    (index_content_type "/3/f/foo" = "application/octet-stream" ↔
      (hasJsonExt "/3/f/foo" = false ∧ "/3/f/foo" ≠ "/HEAD" ∧
        strStartsWith "/3/f/foo" "/info" = false)) :=
  index_sparse_content_type_rule "/3/f/foo"

/-- Claim C5: the download endpoint maps a failed download to its error
with an HTTP status of 401 rewritten to 403 keeping the message, any other
status passed through unchanged, and a successful download to the bytes
with content type application/octet-stream. -/
theorem download_unauthorized_rewritten_forbidden (e : ApiError) (data : List Nat) :
    api_v1_download_crate (.error e) =
      .error (if e.http = 401 then { http := 403, message := e.message } else e) ∧
    api_v1_download_crate (.ok data) = .ok (200, "application/octet-stream", data) := by
  refine ⟨?_, rfl⟩
  by_cases h : e.http = 401 <;>
    simp [api_v1_download_crate, h]

/-- Claim C6: when the sparse protocol is disabled, every path other than
/config.json is answered NotFound, while /config.json is handled exactly as
when the protocol is enabled, and is served with content type
application/json for an authenticated request. -/
theorem index_serve_config_json_always_served (authOk fileOk : Bool) (path : String)
    (h : path ≠ "/config.json") :
    index_serve false authOk fileOk path = .error error_not_found ∧
    index_serve false authOk fileOk "/config.json" =
      index_serve true authOk fileOk "/config.json" ∧
    index_serve false true true "/config.json" = .ok "application/json" := by
  have hb : (path != "/config.json") = true := by
    simp [bne_iff_ne, h]
  refine ⟨?_, rfl, rfl⟩
  simp [index_serve, hb]

/-- Witness for claim C6 at the concrete path /3/f/foo. -/
theorem index_serve_config_json_always_served_witness :
    index_serve false true true "/3/f/foo" = .error error_not_found ∧
    index_serve false true true "/config.json" =
      index_serve true true true "/config.json" ∧
    index_serve false true true "/config.json" = .ok "application/json" :=
  index_serve_config_json_always_served true true "/3/f/foo" (by decide)

/-- Claim C7: the Git smart-HTTP surface of the index exposes only the
upload direction: with the git protocol disabled both endpoints answer
NotFound regardless of the request, with it enabled the refs advertisement
is produced only when the service query value is git-upload-pack and any
other service value is answered NotFound, and the only bodies ever served
carry the two git-upload-pack content types. -/
theorem git_smart_http_upload_only (authOk : Bool) (service : Option String)
    (refs pack : Except ApiError (List Nat)) (data : List Nat)
    (h : service ≠ some "git-upload-pack") :
    index_serve_info_refs false authOk service refs = .error error_not_found ∧
    index_serve_git_upload_pack false authOk pack = .error error_not_found ∧
    index_serve_info_refs true true service refs = .error error_not_found ∧
    index_serve_info_refs true true (some "git-upload-pack") (.ok data) =
      .ok ("application/x-git-upload-pack-advertisement", data) ∧
    index_serve_git_upload_pack true true (.ok data) =
      .ok ("application/x-git-upload-pack-result", data) := by
  have hb : (service == some "git-upload-pack") = false := by
    simp [beq_iff_eq, h]
  refine ⟨rfl, rfl, ?_, rfl, rfl⟩
  simp [index_serve_info_refs, hb]

/-- Witness for claim C7 at the concrete service value git-receive-pack. -/
theorem git_smart_http_upload_only_witness :
    index_serve_info_refs false true (some "git-receive-pack") (.ok [0]) =
      .error error_not_found ∧
    index_serve_git_upload_pack false true (.ok [0]) = .error error_not_found ∧
    index_serve_info_refs true true (some "git-receive-pack") (.ok [0]) =
      .error error_not_found ∧
    index_serve_info_refs true true (some "git-upload-pack") (.ok [0]) =
      .ok ("application/x-git-upload-pack-advertisement", [0]) ∧
    index_serve_git_upload_pack true true (.ok [0]) =
      .ok ("application/x-git-upload-pack-result", [0]) :=
  git_smart_http_upload_only true (some "git-receive-pack") (.ok [0]) (.ok [0]) [0]
    (by decide)

/-- Claim C8: an authenticated set_crate_targets succeeds exactly when
every requested target is in the configured whitelist and the database
update goes through, the stored target list becoming the requested one then
and staying unchanged otherwise; and whenever the scan finds a target
outside the whitelist, that target is a requested one absent from the
whitelist and the call fails with InvalidRequest naming it. -/
theorem set_crate_targets_whitelist (builtin requested current : List String)
    (dbOk : Bool) :
    (exceptIsOk (set_crate_targets builtin true dbOk requested current).1 = true ↔
      ((∀ t ∈ requested, builtin.contains t = true) ∧ dbOk = true)) ∧
    ((set_crate_targets builtin true dbOk requested current).2 =
      if (∀ t ∈ requested, builtin.contains t = true) ∧ dbOk = true then requested
      else current) ∧
    (∀ t, requested.find? (fun s => !builtin.contains s) = some t →
      t ∈ requested ∧ builtin.contains t = false ∧
      (set_crate_targets builtin true dbOk requested current).1 =
        .error (specialize error_invalid_request ("Unknown target: " ++ t))) := by
  by_cases hok : ∀ t ∈ requested, builtin.contains t = true
  · have hnone : requested.find? (fun s => !builtin.contains s) = none :=
      List.find?_eq_none.mpr (fun x hx => by
        show ¬((!builtin.contains x) = true)
        rw [hok x hx]
        decide)
    have hcallT : set_crate_targets builtin true true requested current =
        (.ok (), requested) := by
      unfold set_crate_targets
      rw [hnone]
      rfl
    have hcallF : set_crate_targets builtin true false requested current =
        (.error error_internal, current) := by
      unfold set_crate_targets
      rw [hnone]
      rfl
    refine ⟨?_, ?_, ?_⟩
    · cases dbOk
      · constructor
        · intro h
          rw [hcallF] at h
          simp [exceptIsOk] at h
        · rintro ⟨-, hfe⟩
          exact absurd hfe (by decide)
      · constructor
        · intro h
          exact ⟨hok, rfl⟩
        · intro h
          rw [hcallT]
          rfl
    · cases dbOk
      · rw [hcallF, if_neg (fun hc => absurd hc.2 (by decide))]
      · rw [hcallT, if_pos ⟨hok, rfl⟩]
    · intro t hf
      rw [hnone] at hf
      exact Option.noConfusion hf
  · have hex : ∃ t, requested.find? (fun s => !builtin.contains s) = some t := by
      cases hfind : requested.find? (fun s => !builtin.contains s) with
      | none =>
        refine absurd (fun t ht => ?_) hok
        have hx := List.find?_eq_none.mp hfind t ht
        cases hb : builtin.contains t
        · refine absurd ?_ hx
          show (!builtin.contains t) = true
          rw [hb]
          decide
        · rfl
      | some t => exact ⟨t, rfl⟩
    rcases hex with ⟨t0, ht0⟩
    have hT : set_crate_targets builtin true dbOk requested current =
        (.error (specialize error_invalid_request ("Unknown target: " ++ t0)), current) := by
      unfold set_crate_targets
      rw [ht0]
      rfl
    have hcond : ¬((∀ t ∈ requested, builtin.contains t = true) ∧ dbOk = true) := by
      rintro ⟨hc, -⟩
      exact hok hc
    refine ⟨?_, ?_, ?_⟩
    · constructor
      · intro h
        rw [hT] at h
        simp [exceptIsOk] at h
      · intro hc
        exact absurd hc hcond
    · rw [hT, if_neg hcond]
    · intro t hf
      have hmem : t ∈ requested := List.mem_of_find?_eq_some hf
      have hp0 := List.find?_some hf
      have hp2 : (!builtin.contains t) = true := hp0
      have hpc : builtin.contains t = false := by
        cases hb : builtin.contains t
        · rfl
        · rw [hb] at hp2
          exact absurd hp2 (by decide)
      rw [ht0] at hf
      have hte := Option.some.inj hf
      subst hte
      refine ⟨hmem, hpc, ?_⟩
      rw [hT]

/-- Witness for claim C8 on a concrete whitelist and request. -/
theorem set_crate_targets_whitelist_witness :
    (exceptIsOk (set_crate_targets ["a", "b"] true true ["a", "z"] ["a"]).1 = true ↔
      ((∀ t ∈ (["a", "z"] : List String), (["a", "b"] : List String).contains t = true) ∧
        (true : Bool) = true)) ∧
    ((set_crate_targets ["a", "b"] true true ["a", "z"] ["a"]).2 =
      if (∀ t ∈ (["a", "z"] : List String), (["a", "b"] : List String).contains t = true) ∧
          (true : Bool) = true then ["a", "z"]
      else ["a"]) ∧
    (∀ t, (["a", "z"] : List String).find? (fun s => !(["a", "b"] : List String).contains s) =
        some t →
      t ∈ (["a", "z"] : List String) ∧ (["a", "b"] : List String).contains t = false ∧
      (set_crate_targets ["a", "b"] true true ["a", "z"] ["a"]).1 =
        .error (specialize error_invalid_request ("Unknown target: " ++ t))) :=
  set_crate_targets_whitelist ["a", "b"] ["a", "z"] ["a"] true

/-- Claim C9: get_crate_info called for a crate whose version list comes
back empty reaches the unwrap on the last list element and panics instead
of returning an error result. -/
theorem get_crate_info_empty_versions_panics :
    get_crate_info true (.ok []) (fun _ => .ok "") (.ok []) = .panicked :=
  rfl

/-- Claim C10: the identity cookie issued by the OAuth login handler grants
both the write and the admin capability whatever the stored role flags of
the user, and the cookie branch of authenticate returns the cookie
principal unchanged whenever the known user check on its principal
succeeds, so every cookie authenticated request acts with full
capabilities. -/
theorem cookie_sessions_full_capabilities (u : RegistryUser)
    (selfLogin selfToken : String)
    (check_token : Token → Except ApiError AuthenticatedUser)
    (check_is_user : String → Except ApiError Unit)
    (user : AuthenticatedUser)
    (h : check_is_user user.principal = .ok ()) :
    (login_cookie_user u).can_write = true ∧
    (login_cookie_user u).can_admin = true ∧
    authenticate selfLogin selfToken check_token check_is_user
      { token := none, cookie := .ok (some user) } = .ok user := by
  refine ⟨rfl, rfl, ?_⟩
  simp [authenticate, h]

/-- Witness for claim C10 at a concrete user and known user check. -/
theorem cookie_sessions_full_capabilities_witness :
    (login_cookie_user { id := 1, email := "alice" }).can_write = true ∧
    (login_cookie_user { id := 1, email := "alice" }).can_admin = true ∧
    authenticate "self" "secret" (fun _ => .error error_unauthorized)
      (fun _ => .ok ())
      { token := none,
        cookie := .ok (some { uid := 1, principal := "alice",
                              can_write := true, can_admin := true }) } =
      .ok { uid := 1, principal := "alice", can_write := true, can_admin := true } :=
  cookie_sessions_full_capabilities { id := 1, email := "alice" } "self" "secret"
    (fun _ => .error error_unauthorized) (fun _ => .ok ())
    { uid := 1, principal := "alice", can_write := true, can_admin := true } rfl

end Cratery
